import Mathlib

/-!
Verification of the URL-shortener's `ShortenURL` handler
(`api/routes/shorten.go`) against its specification.

The handler is embedded shallowly:
* the two Redis logical databases (DB 0: link records, DB 1: quota records)
  are association lists with a per-key TTL field;
* Go's `strconv.Atoi` (with discarded error) and the store's integer parsing
  for `DECR` are modelled explicitly on decimal strings;
* external collaborators without source in the repository
  (`govalidator.IsURL`, the random UUID, a store write failure) are
  oracles passed as parameters, and the two helpers whose bodies are not in
  the repository (`helpers.EnforceHTTP`, `helpers.RemoveDomainError`) are
  modelled from the spec, as marked on their doc comments.
-/

/-! ### Decimal strings

Machinery for decimal integer strings: the quota record's value is a string
that the handler parses with `strconv.Atoi` and that the store's `DECR`
parses and re-prints. -/

/-- Numeric value of a decimal digit character. -/
def digitVal (c : Char) : Nat := c.toNat - 48

/-- Value of a big-endian list of decimal digit characters. -/
def digitsVal (cs : List Char) : Nat := cs.foldl (fun a c => a * 10 + digitVal c) 0

/-- A non-empty list of decimal digit characters. -/
def isDigits (cs : List Char) : Bool := !cs.isEmpty && cs.all Char.isDigit

/-- Parse a non-empty all-digit character list; `none` otherwise. -/
def digitsToNat (cs : List Char) : Option Nat :=
  if isDigits cs then some (digitsVal cs) else none

/-- Little-endian decimal digits of `n` (empty for `0`), with explicit fuel
so that the recursion is structural. -/
def natDigitsAux : Nat → Nat → List Nat
  | 0, _ => []
  | fuel + 1, n => if n = 0 then [] else n % 10 :: natDigitsAux fuel (n / 10)

/-- Value of a little-endian digit list. -/
def valLE : List Nat → Nat
  | [] => 0
  | d :: ds => d + 10 * valLE ds

/-- Decimal representation of a natural number. -/
def natDecimal (n : Nat) : String :=
  if n = 0 then "0" else ⟨((natDigitsAux n n).reverse).map Nat.digitChar⟩

/-- Decimal representation of an integer (as printed by the store after
`DECR`). -/
def intDecimal (i : Int) : String :=
  if i < 0 then "-" ++ natDecimal i.natAbs else natDecimal i.toNat

/-- Smallest signed 64-bit integer (`-2^63`). -/
def minI64 : Int := -9223372036854775808

/-- Largest signed 64-bit integer (`2^63 - 1`). -/
def maxI64 : Int := 9223372036854775807

/-- Base-10 signed integer parsing as in Go's `strconv.ParseInt`:
an optional single `+`/`-` sign followed by at least one digit. -/
def goParseInt10 (s : String) : Option Int :=
  if s.data.head? = some '-' then (digitsToNat s.data.tail).map (fun n => -(n : Int))
  else if s.data.head? = some '+' then (digitsToNat s.data.tail).map (fun n => (n : Int))
  else (digitsToNat s.data).map (fun n => (n : Int))

/-- Clamp an integer into the signed 64-bit range, as `strconv.ParseInt`
does on a range error. -/
def clamp64 (n : Int) : Int :=
  if n < minI64 then minI64 else if n > maxI64 then maxI64 else n

/-- Go's `strconv.Atoi` with the error discarded (`valInt, _ := strconv.Atoi(val)`):
`0` on a syntax error, the clamped 64-bit bound on a range error. -/
def goAtoi (s : String) : Int :=
  ((goParseInt10 s).map clamp64).getD 0

/-- Integer parsing done by the store for `DECR`: an optional `-` sign,
at least one digit, and the value must fit in a signed 64-bit integer. -/
def redisString2ll (s : String) : Option Int :=
  if s.data.head? = some '-' then
    (digitsToNat s.data.tail).bind
      (fun n => if (n : Int) ≤ 9223372036854775808 then some (-(n : Int)) else none)
  else
    (digitsToNat s.data).bind
      (fun n => if (n : Int) ≤ maxI64 then some ((n : Int)) else none)

/-! ### Round-trip lemmas for decimal strings -/

theorem valLE_natDigitsAux : ∀ fuel n, n ≤ fuel → valLE (natDigitsAux fuel n) = n := by
  intro fuel
  induction fuel with
  | zero => intro n hn; interval_cases n; rfl
  | succ f ih =>
    intro n hn
    by_cases h0 : n = 0
    · subst h0; simp [natDigitsAux, valLE]
    · have hd : n / 10 < n := Nat.div_lt_self (Nat.pos_of_ne_zero h0) (by omega)
      have : n / 10 ≤ f := by omega
      simp only [natDigitsAux, if_neg h0, valLE, ih _ this]
      omega

theorem natDigitsAux_lt : ∀ fuel n d, d ∈ natDigitsAux fuel n → d < 10 := by
  intro fuel
  induction fuel with
  | zero => intro n d hd; simp [natDigitsAux] at hd
  | succ f ih =>
    intro n d hd
    by_cases h0 : n = 0
    · subst h0; simp [natDigitsAux] at hd
    · simp only [natDigitsAux, if_neg h0, List.mem_cons] at hd
      rcases hd with h | h
      · subst h; exact Nat.mod_lt _ (by omega)
      · exact ih _ _ h

theorem natDigitsAux_ne_nil (fuel n : Nat) (h0 : n ≠ 0) (hn : n ≤ fuel) :
    natDigitsAux fuel n ≠ [] := by
  cases fuel with
  | zero => omega
  | succ f => simp [natDigitsAux, if_neg h0]

theorem digitChar_toNat (d : Nat) (h : d < 10) : (Nat.digitChar d).toNat = 48 + d := by
  interval_cases d <;> rfl

theorem digitChar_isDigit (d : Nat) (h : d < 10) : (Nat.digitChar d).isDigit = true := by
  interval_cases d <;> rfl

theorem foldl_reverse_map_digits (ds : List Nat) (hd : ∀ d ∈ ds, d < 10) :
    ∀ a : Nat, (ds.reverse.map Nat.digitChar).foldl (fun a c => a * 10 + digitVal c) a
      = a * 10 ^ ds.length + valLE ds := by
  induction ds with
  | nil => intro a; simp [valLE]
  | cons d ds ih =>
    intro a
    have hdd : d < 10 := hd d (List.mem_cons_self d ds)
    have hds : ∀ x ∈ ds, x < 10 := fun x hx => hd x (List.mem_cons_of_mem d hx)
    simp only [List.reverse_cons, List.map_append, List.foldl_append, ih hds a,
      List.map_cons, List.map_nil, List.foldl_cons, List.foldl_nil, valLE,
      List.length_cons]
    have : digitVal (Nat.digitChar d) = d := by
      simp [digitVal, digitChar_toNat d hdd]
    rw [this, pow_succ]
    ring

/-- The decimal printer produces a non-empty all-digit string. -/
theorem natDecimal_digits (n : Nat) :
    (natDecimal n).data ≠ [] ∧ ∀ c ∈ (natDecimal n).data, c.isDigit = true := by
  by_cases h0 : n = 0
  · subst h0; constructor
    · decide
    · decide
  · unfold natDecimal
    rw [if_neg h0]
    constructor
    · simp only [ne_eq, List.map_eq_nil_iff, List.reverse_eq_nil_iff]
      exact natDigitsAux_ne_nil n n h0 le_rfl
    · intro c hc
      simp only [List.mem_map, List.mem_reverse] at hc
      obtain ⟨d, hd, rfl⟩ := hc
      exact digitChar_isDigit d (natDigitsAux_lt n n d hd)

/-- Parsing the decimal printer's output recovers the number. -/
theorem digitsToNat_natDecimal (n : Nat) : digitsToNat (natDecimal n).data = some n := by
  by_cases h0 : n = 0
  · subst h0; decide
  · obtain ⟨hne, hall⟩ := natDecimal_digits n
    have hdig : isDigits (natDecimal n).data = true := by
      simp only [isDigits, Bool.and_eq_true, Bool.not_eq_true']
      constructor
      · cases hval : (natDecimal n).data with
        | nil => exact absurd hval hne
        | cons c cs => rfl
      · rw [List.all_eq_true]; exact hall
    rw [digitsToNat, if_pos hdig]
    unfold natDecimal at *
    rw [if_neg h0] at *
    have hlt : ∀ d ∈ natDigitsAux n n, d < 10 := fun d hd => natDigitsAux_lt n n d hd
    show some (digitsVal _) = some n
    rw [digitsVal]
    show some (List.foldl _ 0 ((natDigitsAux n n).reverse.map Nat.digitChar)) = some n
    rw [foldl_reverse_map_digits _ hlt 0, valLE_natDigitsAux n n le_rfl]
    simp

/-- The first character of a printed decimal is a digit (so not a sign). -/
theorem natDecimal_head_not_sign (n : Nat) :
    ∀ c cs, (natDecimal n).data = c :: cs → c ≠ '-' ∧ c ≠ '+' := by
  intro c cs hval
  have hall := (natDecimal_digits n).2 c (by rw [hval]; exact List.mem_cons_self c cs)
  constructor
  · rintro rfl; simp at hall
  · rintro rfl; simp at hall

theorem goParseInt10_natDecimal (n : Nat) : goParseInt10 (natDecimal n) = some (n : Int) := by
  unfold goParseInt10
  cases hval : (natDecimal n).data with
  | nil => exact absurd hval (natDecimal_digits n).1
  | cons c cs =>
    obtain ⟨hm, hp⟩ := natDecimal_head_not_sign n c cs hval
    split_ifs with h1 h2
    · exact absurd (by simpa using h1) hm
    · exact absurd (by simpa using h2) hp
    · rw [← hval, digitsToNat_natDecimal n]; rfl

theorem goAtoi_natDecimal (n : Nat) (h : (n : Int) ≤ maxI64) :
    goAtoi (natDecimal n) = (n : Int) := by
  rw [goAtoi, goParseInt10_natDecimal n]
  show clamp64 (n : Int) = (n : Int)
  rw [clamp64]
  have h1 : ¬ ((n : Int) < minI64) := by simp only [minI64]; omega
  rw [if_neg h1, if_neg (by omega)]

theorem redisString2ll_natDecimal (n : Nat) (h : (n : Int) ≤ maxI64) :
    redisString2ll (natDecimal n) = some (n : Int) := by
  unfold redisString2ll
  cases hval : (natDecimal n).data with
  | nil => exact absurd hval (natDecimal_digits n).1
  | cons c cs =>
    obtain ⟨hm, _⟩ := natDecimal_head_not_sign n c cs hval
    split_ifs with h1
    · exact absurd (by simpa using h1) hm
    · rw [← hval, digitsToNat_natDecimal n]
      simp only [Option.bind_eq_bind, Option.some_bind]
      rw [if_pos h]

theorem intDecimal_of_pos (m : Nat) (hm : 1 ≤ m) :
    intDecimal ((m : Int) - 1) = natDecimal (m - 1) := by
  rw [intDecimal, if_neg (by omega)]
  congr 1
  omega

/-! ### The key/value store

Association-list model of the two Redis logical databases. Each entry is
`(key, value, ttl)`; TTLs are durations in nanoseconds (Go `time.Duration`
units). A `kvTTL` query answers `-2` for a missing key, mirroring the
store's `TTL` reply. Within the single-window runs considered here no time
passes, so expiry never removes an entry. -/

/-- A string key/value namespace with per-key TTLs. -/
def KV : Type := List (String × String × Int)

/-- Redis GET: the value and its TTL, or `none` when absent. -/
def kvGet : KV → String → Option (String × Int)
  | [], _ => none
  | (ek, v, t) :: rest, k => if ek = k then some (v, t) else kvGet rest k

/-- Remove a key's entry. -/
def kvErase : KV → String → KV
  | [], _ => []
  | (ek, v, t) :: rest, k =>
    if ek = k then kvErase rest k else (ek, v, t) :: kvErase rest k

/-- Redis SET with a per-key expiry. -/
def kvSet (kv : KV) (k v : String) (t : Int) : KV := (k, v, t) :: kvErase kv k

/-- Redis TTL query: answers `-2` when the key is absent. -/
def kvTTL (kv : KV) (k : String) : Int :=
  match kvGet kv k with
  | none => -2
  | some (_, t) => t

/-- Redis DECR: creates the key at `-1` (without expiry, modelled as TTL `-1`)
when absent; leaves the store unchanged when the stored value is not a
64-bit decimal integer or the decrement would underflow; otherwise
re-prints the decremented value, keeping the TTL. -/
def kvDecr (kv : KV) (k : String) : KV :=
  match kvGet kv k with
  | none => kvSet kv k "-1" (-1)
  | some (v, t) =>
    match redisString2ll v with
    | none => kv
    | some n => if n = minI64 then kv else kvSet kv k (intDecimal (n - 1)) t

theorem kvGet_kvSet_self (kv : KV) (k v : String) (t : Int) :
    kvGet (kvSet kv k v t) k = some (v, t) := by
  simp [kvGet, kvSet]

theorem kvGet_kvErase_ne (kv : KV) (k k' : String) (h : k' ≠ k) :
    kvGet (kvErase kv k) k' = kvGet kv k' := by
  induction kv with
  | nil => rfl
  | cons e rest ih =>
    obtain ⟨ek, v, t⟩ := e
    show kvGet (if ek = k then kvErase rest k else (ek, v, t) :: kvErase rest k) k'
        = if ek = k' then some (v, t) else kvGet rest k'
    by_cases hk : ek = k
    · subst hk
      rw [if_pos rfl, if_neg (fun hh => h hh.symm)]
      exact ih
    · rw [if_neg hk]
      show (if ek = k' then some (v, t) else kvGet (kvErase rest k) k') = _
      by_cases hke : ek = k'
      · rw [if_pos hke, if_pos hke]
      · rw [if_neg hke, if_neg hke]
        exact ih

theorem kvGet_kvSet_ne (kv : KV) (k k' v : String) (t : Int) (h : k' ≠ k) :
    kvGet (kvSet kv k v t) k' = kvGet kv k' := by
  show (if k = k' then some (v, t) else kvGet (kvErase kv k) k') = _
  rw [if_neg (fun hh => h hh.symm)]
  exact kvGet_kvErase_ne kv k k' h

theorem kvTTL_kvSet_self (kv : KV) (k v : String) (t : Int) :
    kvTTL (kvSet kv k v t) k = t := by
  rw [kvTTL, kvGet_kvSet_self]

/-- Running DECR on a key holding the printed decimal of `m ≥ 1` replaces it by the
printed decimal of `m - 1` and keeps the TTL. -/
theorem kvDecr_natDecimal (kv : KV) (k : String) (m : Nat) (t : Int)
    (hm : 1 ≤ m) (hmB : (m : Int) ≤ maxI64)
    (hget : kvGet kv k = some (natDecimal m, t)) :
    kvDecr kv k = kvSet kv k (natDecimal (m - 1)) t := by
  rw [kvDecr, hget]
  simp only [redisString2ll_natDecimal m hmB]
  rw [if_neg (by simp only [minI64]; omega), intDecimal_of_pos m hm]

/-! ### URL helpers

`helpers.EnforceHTTP` and `helpers.RemoveDomainError` are called by the
handler but their bodies are not part of the repository snapshot (the
README documents only their signatures), so they are modelled from the
spec. -/

/-- Whether a character list contains the scheme separator `://`. -/
def hasSchemeSep : List Char → Bool
  | [] => false
  | ':' :: '/' :: '/' :: _ => true
  | _ :: rest => hasSchemeSep rest

/-- The suffix after the first scheme separator `://`. -/
def afterSchemeSep : List Char → List Char
  | [] => []
  | ':' :: '/' :: '/' :: rest => rest
  | _ :: rest => afterSchemeSep rest

/-- The prefix up to (excluding) the first `/`. -/
def takeUntilSlash : List Char → List Char
  | [] => []
  | '/' :: _ => []
  | c :: rest => c :: takeUntilSlash rest

/-- A URL carries an explicit scheme iff it contains `://`. -/
def hasScheme (url : String) : Bool := hasSchemeSep url.data

/-- Modelled from the spec: `helpers.EnforceHTTP` (body not in the
repository). "Normalize: if the URL lacks an explicit scheme, prefix it
with `http://`." -/
def EnforceHTTP (url : String) : String :=
  if hasScheme url then url else "http://" ++ url

/-- Host portion of a URL: what stands between the scheme separator (when
present) and the first following `/`. -/
def urlHost (url : String) : String :=
  ⟨takeUntilSlash (if hasSchemeSep url.data then afterSchemeSep url.data else url.data)⟩

/-- Modelled from the spec: `helpers.RemoveDomainError` (body not in the
repository). "A target whose host matches this service's own configured
domain is rejected with `InvalidDomain`" — the helper answers `false`
exactly on such self-referencing URLs. The configured domain is passed
explicitly instead of being read from the environment. -/
def RemoveDomainError (url domain : String) : Bool :=
  !(urlHost url == domain)

/-! ### The `ShortenURL` handler

Shallow embedding of `ShortenURL` from `api/routes/shorten.go`. External
effects appear as parameters: `isURL` is the `govalidator.IsURL` oracle,
`uuidStr` the string form of the freshly generated UUID (Go slices its
first six bytes; UUID strings are ASCII, so byte slicing is character
truncation), `setFails` tells whether the link-store write fails, and a
request whose JSON body fails to parse is `none`. Durations are Go
`time.Duration` nanosecond counts; `body.Expiry*time.Hour` multiplies two
64-bit counts, hence the explicit wrap-around. -/

/-- Configuration read from the environment by the handler. -/
structure Env where
  apiQuota : String
  domain : String

/-- The parsed request body (`request` in `shorten.go`). `expiry` is the
JSON number decoded into a `time.Duration`, an hour count as used by the
handler. -/
structure Request where
  url : String
  customShort : String
  expiry : Int

/-- The success response (`response` in `shorten.go`). -/
structure Response where
  url : String
  customShort : String
  expiry : Int
  xRateRemaining : Int
  xRateLimitReset : Int

/-- Outcome of one shortening request, one constructor per `return` of
`ShortenURL`. `rateLimited` carries the quota key's TTL (the handler
serializes it in minutes, a positive rescaling). -/
inductive ShortenOut where
  | parseError
  | rateLimited (resetIn : Int)
  | invalidURL
  | invalidDomain
  | alreadyExists
  | saveError
  | ok (resp : Response)

/-- HTTP status code attached to each outcome in `shorten.go`. -/
def httpStatus : ShortenOut → Nat
  | .parseError => 400
  | .rateLimited _ => 429
  | .invalidURL => 400
  | .invalidDomain => 400
  | .alreadyExists => 403
  | .saveError => 500
  | .ok _ => 200

/-- Error string attached to each failure outcome in `shorten.go`. -/
def errorMessage : ShortenOut → Option String
  | .parseError => some "cannot parse JSON"
  | .rateLimited _ => some "rate limit exceeded"
  | .invalidURL => some "invalid URL"
  | .invalidDomain => some "invalid domain"
  | .alreadyExists => some "short URL already exists"
  | .saveError => some "cannot save URL"
  | .ok _ => none

/-- The two Redis logical databases used by the handler. -/
structure Store where
  db0 : KV
  db1 : KV

/-- Nanoseconds in `30*time.Minute`, the fixed quota window. -/
def thirtyMinutesNs : Int := 1800000000000

/-- Nanoseconds in `time.Hour`. -/
def nsPerHour : Int := 3600000000000

/-- Two's-complement wrap-around of signed 64-bit arithmetic. -/
def wrap64 (i : Int) : Int :=
  (i + 9223372036854775808) % 18446744073709551616 - 9223372036854775808

/-- The short identifier: `uuid.New().String()[:6]` when no custom short is
supplied, the custom short verbatim otherwise. -/
def reqId (uuidStr : String) (body : Request) : String :=
  if body.customShort = "" then ⟨uuidStr.data.take 6⟩ else body.customShort

/-- Result of the rate-limiting block (lines 43–55 of `shorten.go`): either
an early `429` return carrying the key's TTL, or admission together with
the quota namespace as it stands after the block (created fresh on a
missing key). -/
inductive RLResult where
  | reject (resetIn : Int)
  | admitted (db1 : KV)

/-- The rate-limiting block: read the client address' key; when absent,
create it with the configured quota string and a 30-minute TTL and proceed;
when present, parse it with `strconv.Atoi` (errors discarded) and reject
with the key's TTL unless the value is positive. -/
def rateCheck (env : Env) (ip : String) (db1 : KV) : RLResult :=
  match kvGet db1 ip with
  | none => .admitted (kvSet db1 ip env.apiQuota thirtyMinutesNs)
  | some (v, _) =>
    if goAtoi v ≤ 0 then .reject (kvTTL db1 ip) else .admitted db1

/-- Everything after admission (lines 57–120 of `shorten.go`): URL
validation, domain check, normalization, identifier choice, collision
check on the link namespace (a missing key reads as `""`), expiry
defaulting, the link write, and — only after a successful write — the
quota decrement and the response snapshot built from re-reading the
quota key and its TTL. -/
def mainStep (env : Env) (isURL : String → Bool) (uuidStr : String)
    (setFails : Bool) (ip : String) (body : Request) (st : Store) :
    ShortenOut × Store :=
  if !(isURL body.url) then (.invalidURL, st)
  else if !(RemoveDomainError body.url env.domain) then (.invalidDomain, st)
  else
    let url := EnforceHTTP body.url
    let id := reqId uuidStr body
    if (((kvGet st.db0 id).map Prod.fst).getD "") != "" then (.alreadyExists, st)
    else
      let expiry := if body.expiry = 0 then 24 else body.expiry
      if setFails then (.saveError, st)
      else
        let db0 := kvSet st.db0 id url (wrap64 (expiry * nsPerHour))
        let db1 := kvDecr st.db1 ip
        let val := ((kvGet db1 ip).map Prod.fst).getD ""
        (.ok { url := url, customShort := env.domain ++ "/" ++ id,
               expiry := expiry, xRateRemaining := goAtoi val,
               xRateLimitReset := kvTTL db1 ip },
         { db0 := db0, db1 := db1 })

/-- The full `ShortenURL` handler: body parsing, the rate-limiting block,
then the rest. -/
def ShortenURL (env : Env) (isURL : String → Bool) (uuidStr : String)
    (setFails : Bool) (ip : String) (body? : Option Request) (st : Store) :
    ShortenOut × Store :=
  match body? with
  | none => (.parseError, st)
  | some body =>
    match rateCheck env ip st.db1 with
    | .reject t => (.rateLimited t, st)
    | .admitted db1 => mainStep env isURL uuidStr setFails ip body { st with db1 := db1 }

/-- A sequential run: each request carries its own body and fresh UUID;
link-store writes succeed. -/
def runRequests (env : Env) (isURL : String → Bool) (ip : String) :
    List (Request × String) → Store → List ShortenOut × Store
  | [], st => ([], st)
  | (b, u) :: rest, st =>
    let p := ShortenURL env isURL u false ip (some b) st
    let q := runRequests env isURL ip rest p.2
    (p.1 :: q.1, q.2)

/-! ### Behavior of one admitted, fully valid request -/

/-- An admitted request that passes every later step: the link is written
with the normalized URL, the quota value `m` is decremented to `m - 1`
(its TTL kept), and the response reports the post-decrement remaining
count and the window TTL. -/
theorem mainStep_ok (env : Env) (isURL : String → Bool) (uuidStr : String)
    (ip : String) (b : Request) (st : Store) (m : Nat) (T : Int)
    (hm : 1 ≤ m) (hmB : (m : Int) ≤ maxI64)
    (hv : isURL b.url = true)
    (hd : RemoveDomainError b.url env.domain = true)
    (hfresh : kvGet st.db0 (reqId uuidStr b) = none)
    (hdb1 : kvGet st.db1 ip = some (natDecimal m, T)) :
    mainStep env isURL uuidStr false ip b st =
      (.ok { url := EnforceHTTP b.url,
             customShort := env.domain ++ "/" ++ reqId uuidStr b,
             expiry := if b.expiry = 0 then 24 else b.expiry,
             xRateRemaining := (m : Int) - 1,
             xRateLimitReset := T },
       { db0 := kvSet st.db0 (reqId uuidStr b) (EnforceHTTP b.url)
            (wrap64 ((if b.expiry = 0 then 24 else b.expiry) * nsPerHour)),
         db1 := kvSet st.db1 ip (natDecimal (m - 1)) T }) := by
  have hm1B : ((m - 1 : Nat) : Int) ≤ maxI64 := by
    have : ((m - 1 : Nat) : Int) ≤ (m : Int) := by exact_mod_cast Nat.sub_le m 1
    omega
  have hcast : ((m - 1 : Nat) : Int) = (m : Int) - 1 := by omega
  unfold mainStep
  rw [hv, hd]
  simp only [Bool.not_true, Bool.false_eq_true, if_false, hfresh, Option.map_none',
    Option.getD_none, bne_self_eq_false, if_false,
    kvDecr_natDecimal st.db1 ip m T hm hmB hdb1, kvGet_kvSet_self, Option.map_some',
    Option.getD_some, kvTTL_kvSet_self, goAtoi_natDecimal (m - 1) hm1B, hcast]

/-- A positive stored quota value admits the request without touching the
quota namespace. -/
theorem rateCheck_admit_pos (env : Env) (ip : String) (db1 : KV)
    (v : String) (t : Int) (hget : kvGet db1 ip = some (v, t))
    (hpos : 0 < goAtoi v) :
    rateCheck env ip db1 = .admitted db1 := by
  rw [rateCheck, hget]
  show (if goAtoi v ≤ 0 then RLResult.reject (kvTTL db1 ip) else RLResult.admitted db1)
      = RLResult.admitted db1
  rw [if_neg (by omega)]

/-- A non-positive stored quota value rejects the request with the key's
TTL. -/
theorem rateCheck_reject (env : Env) (ip : String) (db1 : KV)
    (v : String) (t : Int) (hget : kvGet db1 ip = some (v, t))
    (hnp : goAtoi v ≤ 0) :
    rateCheck env ip db1 = .reject t := by
  rw [rateCheck, hget]
  show (if goAtoi v ≤ 0 then RLResult.reject (kvTTL db1 ip) else RLResult.admitted db1)
      = RLResult.reject t
  rw [if_pos hnp, kvTTL, hget]

/-- Invariant run lemma: starting from a live quota record holding the
printed decimal of `m`, a sequence of otherwise-valid requests is admitted
while the remaining count is positive — the `i`-th response reporting
`m - 1 - i` — and every later request is rejected as rate-limited with
the window TTL; the record ends at `m` minus the number of admissions. -/
theorem runRequests_window (env : Env) (isURL : String → Bool) (ip : String)
    (reqs : List (Request × String)) :
    ∀ (st : Store) (m : Nat), (m : Int) ≤ maxI64 →
    kvGet st.db1 ip = some (natDecimal m, thirtyMinutesNs) →
    (∀ p ∈ reqs, isURL p.1.url = true) →
    (∀ p ∈ reqs, RemoveDomainError p.1.url env.domain = true) →
    (∀ p ∈ reqs, p.1.customShort ≠ "") →
    (∀ p ∈ reqs, kvGet st.db0 p.1.customShort = none) →
    (reqs.map fun p => p.1.customShort).Nodup →
    kvGet (runRequests env isURL ip reqs st).2.db1 ip
        = some (natDecimal (m - reqs.length), thirtyMinutesNs) ∧
    ∀ i, i < reqs.length →
      (i < m → ∃ r, (runRequests env isURL ip reqs st).1[i]? = some (.ok r) ∧
          r.xRateRemaining = (m : Int) - 1 - i) ∧
      (m ≤ i → (runRequests env isURL ip reqs st).1[i]?
          = some (.rateLimited thirtyMinutesNs)) := by
  induction reqs with
  | nil =>
    intro st m hmB hdb1 _ _ _ _ _
    refine ⟨by simpa using hdb1, ?_⟩
    intro i hi
    exact absurd hi (by simp)
  | cons p rest ih =>
    obtain ⟨b, u⟩ := p
    intro st m hmB hdb1 hvalid hdom hcs hfresh hnodup
    have hvb : isURL b.url = true := hvalid (b, u) (List.mem_cons_self _ _)
    have hdb : RemoveDomainError b.url env.domain = true :=
      hdom (b, u) (List.mem_cons_self _ _)
    have hcb : b.customShort ≠ "" := hcs (b, u) (List.mem_cons_self _ _)
    have hfb : kvGet st.db0 b.customShort = none := hfresh (b, u) (List.mem_cons_self _ _)
    have hid : reqId u b = b.customShort := by rw [reqId, if_neg hcb]
    have hnotmem : b.customShort ∉ rest.map (fun p => p.1.customShort) := by
      have := hnodup
      simp only [List.map_cons, List.nodup_cons] at this
      exact this.1
    have hnodup' : (rest.map fun p => p.1.customShort).Nodup := by
      have := hnodup
      simp only [List.map_cons, List.nodup_cons] at this
      exact this.2
    cases m with
    | zero =>
      have hz : goAtoi (natDecimal 0) = 0 := by
        have := goAtoi_natDecimal 0 (by simp only [maxI64]; omega)
        simpa using this
      have hstep : ShortenURL env isURL u false ip (some b) st
          = (.rateLimited thirtyMinutesNs, st) := by
        rw [ShortenURL,
          rateCheck_reject env ip st.db1 (natDecimal 0) thirtyMinutesNs hdb1 (by omega)]
      have hrest := ih st 0 hmB hdb1
        (fun p hp => hvalid p (List.mem_cons_of_mem _ hp))
        (fun p hp => hdom p (List.mem_cons_of_mem _ hp))
        (fun p hp => hcs p (List.mem_cons_of_mem _ hp))
        (fun p hp => hfresh p (List.mem_cons_of_mem _ hp))
        hnodup'
      rw [runRequests]
      simp only [hstep]
      refine ⟨by simpa using hrest.1, ?_⟩
      intro i hi
      refine ⟨by omega, ?_⟩
      intro _
      cases i with
      | zero => simp
      | succ j =>
        simp only [List.getElem?_cons_succ]
        exact ((hrest.2 j (by simpa using hi)).2 (by omega))
    | succ m' =>
      have hmpos : goAtoi (natDecimal (m' + 1)) = ((m' + 1 : Nat) : Int) :=
        goAtoi_natDecimal (m' + 1) hmB
      have hstep : ShortenURL env isURL u false ip (some b) st
          = mainStep env isURL u false ip b st := by
        rw [ShortenURL, rateCheck_admit_pos env ip st.db1 (natDecimal (m' + 1))
          thirtyMinutesNs hdb1 (by rw [hmpos]; positivity)]
      have hmain := mainStep_ok env isURL u ip b st (m' + 1) thirtyMinutesNs
        (by omega) hmB hvb hdb (by rw [hid]; exact hfb) hdb1
      simp only [Nat.add_sub_cancel] at hmain
      set st1 : Store :=
        { db0 := kvSet st.db0 (reqId u b) (EnforceHTTP b.url)
            (wrap64 ((if b.expiry = 0 then 24 else b.expiry) * nsPerHour)),
          db1 := kvSet st.db1 ip (natDecimal m') thirtyMinutesNs } with hst1
      have hrest := ih st1 m'
        (by push_cast at hmB ⊢; omega)
        (by rw [hst1]; exact kvGet_kvSet_self _ _ _ _)
        (fun p hp => hvalid p (List.mem_cons_of_mem _ hp))
        (fun p hp => hdom p (List.mem_cons_of_mem _ hp))
        (fun p hp => hcs p (List.mem_cons_of_mem _ hp))
        (fun p hp => by
          rw [hst1]
          show kvGet (kvSet st.db0 (reqId u b) _ _) p.1.customShort = none
          rw [hid, kvGet_kvSet_ne]
          · exact hfresh p (List.mem_cons_of_mem _ hp)
          · intro hEq
            exact hnotmem (hEq ▸ List.mem_map_of_mem (fun p => p.1.customShort) hp))
        hnodup'
      rw [runRequests]
      simp only [hstep, hmain]
      constructor
      · have := hrest.1
        simp only [List.length_cons]
        rw [show m' + 1 - (rest.length + 1) = m' - rest.length by omega]
        exact this
      · intro i hi
        cases i with
        | zero =>
          refine ⟨fun _ => ?_, fun habs => by omega⟩
          exact ⟨_, List.getElem?_cons_zero, by
            show ((m' + 1 : Nat) : Int) - 1 = ((m' + 1 : Nat) : Int) - 1 - ((0 : Nat) : Int)
            push_cast
            ring⟩
        | succ j =>
          have hj : j < rest.length := by simpa using hi
          refine ⟨fun hlt => ?_, fun hge => ?_⟩
          · obtain ⟨r, hr, hrem⟩ := (hrest.2 j hj).1 (by omega)
            refine ⟨r, ?_, ?_⟩
            · rw [List.getElem?_cons_succ]
              exact hr
            · rw [hrem]; push_cast; ring
          · rw [List.getElem?_cons_succ]
            exact (hrest.2 j hj).2 (by omega)

/-! ### Claim theorems -/

/-- C9. If the stored quota value for a client's address exists but is
not a parseable integer (e.g. the empty string left by an unset quota
configuration variable), `strconv.Atoi` yields `0`, so every shortening
request from that client is rejected as rate-limited, leaving the store
unchanged. -/
theorem c9_unparseable_quota_rejected
    (env : Env) (isURL : String → Bool) (uuidStr : String) (setFails : Bool)
    (ip : String) (b : Request) (st : Store) (v : String) (t : Int)
    (hget : kvGet st.db1 ip = some (v, t))
    (hbad : goParseInt10 v = none) :
    goAtoi v = 0 ∧
    ShortenURL env isURL uuidStr setFails ip (some b) st
      = (.rateLimited t, st) ∧
    httpStatus (ShortenURL env isURL uuidStr setFails ip (some b) st).1 = 429 := by
  have hz : goAtoi v = 0 := by rw [goAtoi, hbad]; rfl
  have hstep : ShortenURL env isURL uuidStr setFails ip (some b) st
      = (.rateLimited t, st) := by
    rw [ShortenURL, rateCheck_reject env ip st.db1 v t hget (by omega)]
  exact ⟨hz, hstep, by rw [hstep]; rfl⟩

/-- C9 witness. A quota record holding the empty string (the value left
when `API_QUOTA` is unset) rejects a concrete request. -/
theorem c9_unparseable_quota_rejected_witness :
    goAtoi "" = 0 ∧
    ShortenURL { apiQuota := "10", domain := "sv.example" } (fun _ => true) "aaaaaa"
      false "9.9.9.9"
      (some { url := "https://a.example/p", customShort := "w9", expiry := 0 })
      { db0 := [], db1 := [("9.9.9.9", "", 55)] }
      = (.rateLimited 55, { db0 := [], db1 := [("9.9.9.9", "", 55)] }) ∧
    httpStatus (ShortenURL { apiQuota := "10", domain := "sv.example" } (fun _ => true)
      "aaaaaa" false "9.9.9.9"
      (some { url := "https://a.example/p", customShort := "w9", expiry := 0 })
      { db0 := [], db1 := [("9.9.9.9", "", 55)] }).1 = 429 :=
  c9_unparseable_quota_rejected _ _ _ _ _ _ _ "" 55 (by decide) (by decide)

/-- C3. A candidate identifier (supplied or generated) that collides
with a live link record makes the request fail with HTTP 403
"short URL already exists", the stores are left untouched, and — the state
being unchanged — repeating the same request fails identically. -/
theorem c3_collision_always_conflict
    (env : Env) (isURL : String → Bool) (uuidStr : String) (setFails : Bool)
    (ip : String) (b : Request) (st : Store) (v0 : String) (t0 : Int)
    (hrl : kvGet st.db1 ip = some (v0, t0)) (hpos : 0 < goAtoi v0)
    (hv : isURL b.url = true) (hd : RemoveDomainError b.url env.domain = true)
    (u : String) (t : Int) (hcol : kvGet st.db0 (reqId uuidStr b) = some (u, t))
    (hu : u ≠ "") :
    ShortenURL env isURL uuidStr setFails ip (some b) st = (.alreadyExists, st) ∧
    ShortenURL env isURL uuidStr setFails ip (some b)
        (ShortenURL env isURL uuidStr setFails ip (some b) st).2
      = (.alreadyExists, st) ∧
    httpStatus ShortenOut.alreadyExists = 403 ∧
    errorMessage ShortenOut.alreadyExists = some "short URL already exists" := by
  have hbne : (u != "") = true := bne_iff_ne.mpr hu
  have hstep : ShortenURL env isURL uuidStr setFails ip (some b) st
      = (.alreadyExists, st) := by
    rw [ShortenURL, rateCheck_admit_pos env ip st.db1 v0 t0 hrl hpos]
    unfold mainStep
    rw [hv, hd]
    simp only [Bool.not_true, Bool.false_eq_true, if_false, hcol, Option.map_some',
      Option.getD_some, hbne, if_true]
  exact ⟨hstep, by rw [hstep, hstep], rfl, rfl⟩

/-- C3 witness. A concrete collision on the custom identifier `"taken"`. -/
theorem c3_collision_always_conflict_witness :
    ShortenURL { apiQuota := "10", domain := "sv.example" } (fun _ => true) "bbbbbb"
      false "8.8.8.8"
      (some { url := "https://a.example/p", customShort := "taken", expiry := 0 })
      { db0 := [("taken", "http://old.example", 77)],
        db1 := [("8.8.8.8", "3", 55)] }
      = (.alreadyExists,
         { db0 := [("taken", "http://old.example", 77)],
           db1 := [("8.8.8.8", "3", 55)] }) ∧
    ShortenURL { apiQuota := "10", domain := "sv.example" } (fun _ => true) "bbbbbb"
      false "8.8.8.8"
      (some { url := "https://a.example/p", customShort := "taken", expiry := 0 })
      (ShortenURL { apiQuota := "10", domain := "sv.example" } (fun _ => true) "bbbbbb"
        false "8.8.8.8"
        (some { url := "https://a.example/p", customShort := "taken", expiry := 0 })
        { db0 := [("taken", "http://old.example", 77)],
          db1 := [("8.8.8.8", "3", 55)] }).2
      = (.alreadyExists,
         { db0 := [("taken", "http://old.example", 77)],
           db1 := [("8.8.8.8", "3", 55)] }) ∧
    httpStatus ShortenOut.alreadyExists = 403 ∧
    errorMessage ShortenOut.alreadyExists = some "short URL already exists" :=
  c3_collision_always_conflict _ _ _ _ _ _ _ "3" 55 (by decide) (by decide) rfl
    (by decide) "http://old.example" 77 (by decide) (by decide)

/-- C6. A URL whose host equals the configured domain is rejected with
HTTP 400 "invalid domain" and no link record is written (state unchanged). -/
theorem c6_self_domain_rejected
    (env : Env) (isURL : String → Bool) (uuidStr : String) (setFails : Bool)
    (ip : String) (b : Request) (st : Store) (v0 : String) (t0 : Int)
    (hrl : kvGet st.db1 ip = some (v0, t0)) (hpos : 0 < goAtoi v0)
    (hv : isURL b.url = true)
    (hhost : urlHost b.url = env.domain) :
    ShortenURL env isURL uuidStr setFails ip (some b) st = (.invalidDomain, st) ∧
    (ShortenURL env isURL uuidStr setFails ip (some b) st).2.db0 = st.db0 ∧
    httpStatus ShortenOut.invalidDomain = 400 ∧
    errorMessage ShortenOut.invalidDomain = some "invalid domain" := by
  have hrd : RemoveDomainError b.url env.domain = false := by
    rw [RemoveDomainError, hhost]
    simp
  have hstep : ShortenURL env isURL uuidStr setFails ip (some b) st
      = (.invalidDomain, st) := by
    rw [ShortenURL, rateCheck_admit_pos env ip st.db1 v0 t0 hrl hpos]
    unfold mainStep
    rw [hv, hrd]
    simp only [Bool.not_true, Bool.not_false, Bool.false_eq_true, if_false, if_true]
  exact ⟨hstep, by rw [hstep], rfl, rfl⟩

/-- C6 witness. Shortening `http://sv.example/loop` on a service whose
configured domain is `sv.example` is rejected. -/
theorem c6_self_domain_rejected_witness :
    ShortenURL { apiQuota := "10", domain := "sv.example" } (fun _ => true) "cccccc"
      false "7.7.7.7"
      (some { url := "http://sv.example/loop", customShort := "", expiry := 0 })
      { db0 := [], db1 := [("7.7.7.7", "3", 55)] }
      = (.invalidDomain, { db0 := [], db1 := [("7.7.7.7", "3", 55)] }) ∧
    (ShortenURL { apiQuota := "10", domain := "sv.example" } (fun _ => true) "cccccc"
      false "7.7.7.7"
      (some { url := "http://sv.example/loop", customShort := "", expiry := 0 })
      { db0 := [], db1 := [("7.7.7.7", "3", 55)] }).2.db0 = [] ∧
    httpStatus ShortenOut.invalidDomain = 400 ∧
    errorMessage ShortenOut.invalidDomain = some "invalid domain" :=
  c6_self_domain_rejected _ _ _ _ _ _ _ "3" 55 (by decide) (by decide) rfl (by decide)

/-- C5. An admitted, valid request stores and returns `EnforceHTTP` of
the input URL: unchanged when the URL already carries a scheme, prefixed
with `http://` when it does not. -/
theorem c5_scheme_normalization
    (env : Env) (isURL : String → Bool) (uuidStr : String)
    (ip : String) (b : Request) (st : Store) (v0 : String) (t0 : Int)
    (hrl : kvGet st.db1 ip = some (v0, t0)) (hpos : 0 < goAtoi v0)
    (hv : isURL b.url = true) (hd : RemoveDomainError b.url env.domain = true)
    (hfresh : kvGet st.db0 (reqId uuidStr b) = none) :
    (∃ r st1, ShortenURL env isURL uuidStr false ip (some b) st = (.ok r, st1) ∧
      r.url = EnforceHTTP b.url ∧
      kvGet st1.db0 (reqId uuidStr b)
        = some (EnforceHTTP b.url,
            wrap64 ((if b.expiry = 0 then 24 else b.expiry) * nsPerHour))) ∧
    (hasScheme b.url = true → EnforceHTTP b.url = b.url) ∧
    (hasScheme b.url = false → EnforceHTTP b.url = "http://" ++ b.url) := by
  refine ⟨?_, ?_, ?_⟩
  · rw [ShortenURL, rateCheck_admit_pos env ip st.db1 v0 t0 hrl hpos]
    unfold mainStep
    rw [hv, hd]
    simp only [Bool.not_true, Bool.false_eq_true, if_false, hfresh, Option.map_none',
      Option.getD_none, bne_self_eq_false]
    exact ⟨_, _, rfl, rfl, kvGet_kvSet_self _ _ _ _⟩
  · intro h
    rw [EnforceHTTP, if_pos h]
  · intro h
    rw [EnforceHTTP, if_neg (by rw [h]; exact Bool.false_ne_true)]

/-- C5 witness. A scheme-less URL is stored with the `http://` prefix. -/
theorem c5_scheme_normalization_witness :
    ((∃ r st1, ShortenURL { apiQuota := "10", domain := "sv.example" } (fun _ => true)
        "dddddd" false "6.6.6.6"
        (some { url := "a.example/p", customShort := "w5", expiry := 0 })
        { db0 := [], db1 := [("6.6.6.6", "3", 55)] } = (.ok r, st1) ∧
      r.url = EnforceHTTP "a.example/p" ∧
      kvGet st1.db0 (reqId "dddddd" { url := "a.example/p", customShort := "w5", expiry := 0 })
        = some (EnforceHTTP "a.example/p", wrap64 ((if (0 : Int) = 0 then 24 else 0) * nsPerHour))) ∧
    (hasScheme "a.example/p" = true → EnforceHTTP "a.example/p" = "a.example/p") ∧
    (hasScheme "a.example/p" = false →
      EnforceHTTP "a.example/p" = "http://" ++ "a.example/p")) ∧
    hasScheme "a.example/p" = false ∧
    EnforceHTTP "a.example/p" = "http://a.example/p" :=
  ⟨c5_scheme_normalization _ _ _ _ _ _ "3" 55 (by decide) (by decide) rfl (by decide)
    (by decide), by decide, by decide⟩

/-- C10. Any non-empty custom identifier is used verbatim — no length,
character-set, or reserved-name validation — and subject only to the
collision lookup; when free, the request succeeds and the link is stored
under it. -/
theorem c10_custom_short_verbatim
    (env : Env) (isURL : String → Bool) (uuidStr : String)
    (ip : String) (b : Request) (st : Store) (v0 : String) (t0 : Int)
    (hrl : kvGet st.db1 ip = some (v0, t0)) (hpos : 0 < goAtoi v0)
    (hv : isURL b.url = true) (hd : RemoveDomainError b.url env.domain = true)
    (hcs : b.customShort ≠ "")
    (hfresh : kvGet st.db0 b.customShort = none) :
    reqId uuidStr b = b.customShort ∧
    ∃ r st1, ShortenURL env isURL uuidStr false ip (some b) st = (.ok r, st1) ∧
      r.customShort = env.domain ++ "/" ++ b.customShort ∧
      kvGet st1.db0 b.customShort
        = some (EnforceHTTP b.url,
            wrap64 ((if b.expiry = 0 then 24 else b.expiry) * nsPerHour)) := by
  have hid : reqId uuidStr b = b.customShort := by rw [reqId, if_neg hcs]
  refine ⟨hid, ?_⟩
  rw [ShortenURL, rateCheck_admit_pos env ip st.db1 v0 t0 hrl hpos]
  unfold mainStep
  rw [hv, hd, hid]
  simp only [Bool.not_true, Bool.false_eq_true, if_false, hfresh, Option.map_none',
    Option.getD_none, bne_self_eq_false]
  exact ⟨_, _, rfl, rfl, kvGet_kvSet_self _ _ _ _⟩

/-- C10 witness. The custom identifier `"A b!/x"` — six characters with
a space, punctuation and a slash — is accepted verbatim. -/
theorem c10_custom_short_verbatim_witness :
    reqId "eeeeee" { url := "https://a.example/p", customShort := "A b!/x", expiry := 0 }
      = "A b!/x" ∧
    ∃ r st1, ShortenURL { apiQuota := "10", domain := "sv.example" } (fun _ => true)
        "eeeeee" false "5.5.5.5"
        (some { url := "https://a.example/p", customShort := "A b!/x", expiry := 0 })
        { db0 := [], db1 := [("5.5.5.5", "3", 55)] } = (.ok r, st1) ∧
      r.customShort = "sv.example" ++ "/" ++ "A b!/x" ∧
      kvGet st1.db0 "A b!/x"
        = some (EnforceHTTP "https://a.example/p",
            wrap64 ((if (0 : Int) = 0 then 24 else 0) * nsPerHour)) :=
  c10_custom_short_verbatim _ _ _ _ _ _ "3" 55 (by decide) (by decide) rfl (by decide)
    (by decide) (by decide)

/-- C7. An admitted request with no custom identifier and zero expiry:
the generated identifier is the UUID's first six characters (length 6),
the stored target is the already-schemed input URL unchanged, and the
effective expiry defaults to 24 (hours), i.e. a link TTL of
`24*time.Hour`. -/
theorem c7_generated_id_and_defaults
    (env : Env) (isURL : String → Bool) (uuidStr : String)
    (ip : String) (b : Request) (st : Store) (v0 : String) (t0 : Int)
    (hrl : kvGet st.db1 ip = some (v0, t0)) (hpos : 0 < goAtoi v0)
    (hv : isURL b.url = true) (hd : RemoveDomainError b.url env.domain = true)
    (hnocs : b.customShort = "") (hexp : b.expiry = 0)
    (hscheme : hasScheme b.url = true)
    (hfresh : kvGet st.db0 (reqId uuidStr b) = none)
    (hlen : 6 ≤ uuidStr.length) :
    (reqId uuidStr b).length = 6 ∧
    ∃ r st1, ShortenURL env isURL uuidStr false ip (some b) st = (.ok r, st1) ∧
      r.url = b.url ∧ r.expiry = 24 ∧
      r.customShort = env.domain ++ "/" ++ reqId uuidStr b ∧
      kvGet st1.db0 (reqId uuidStr b) = some (b.url, 24 * nsPerHour) := by
  have henf : EnforceHTTP b.url = b.url := by rw [EnforceHTTP, if_pos hscheme]
  have hwrap : wrap64 (24 * nsPerHour) = 24 * nsPerHour := by decide
  have hidlen : (reqId uuidStr b).length = 6 := by
    rw [reqId, if_pos hnocs]
    show (uuidStr.data.take 6).length = 6
    rw [List.length_take]
    have : uuidStr.data.length = uuidStr.length := rfl
    omega
  refine ⟨hidlen, ?_⟩
  rw [ShortenURL, rateCheck_admit_pos env ip st.db1 v0 t0 hrl hpos]
  unfold mainStep
  rw [hv, hd]
  simp only [Bool.not_true, Bool.false_eq_true, if_false, hfresh, Option.map_none',
    Option.getD_none, bne_self_eq_false, hexp, henf, if_pos]
  refine ⟨_, _, rfl, rfl, rfl, rfl, ?_⟩
  rw [hwrap]
  exact kvGet_kvSet_self _ _ _ _

/-- C7 witness. Shortening `https://example.com/a/b` with no custom id
and no expiry, with a 36-character UUID string. -/
theorem c7_generated_id_and_defaults_witness :
    (reqId "123e4567-e89b-12d3-a456-426614174000"
      { url := "https://example.com/a/b", customShort := "", expiry := 0 }).length = 6 ∧
    ∃ r st1, ShortenURL { apiQuota := "10", domain := "sv.example" } (fun _ => true)
        "123e4567-e89b-12d3-a456-426614174000" false "4.4.4.4"
        (some { url := "https://example.com/a/b", customShort := "", expiry := 0 })
        { db0 := [], db1 := [("4.4.4.4", "3", 55)] } = (.ok r, st1) ∧
      r.url = "https://example.com/a/b" ∧ r.expiry = 24 ∧
      r.customShort = "sv.example" ++ "/" ++ reqId "123e4567-e89b-12d3-a456-426614174000"
        { url := "https://example.com/a/b", customShort := "", expiry := 0 } ∧
      kvGet st1.db0 (reqId "123e4567-e89b-12d3-a456-426614174000"
          { url := "https://example.com/a/b", customShort := "", expiry := 0 })
        = some ("https://example.com/a/b", 24 * nsPerHour) :=
  c7_generated_id_and_defaults _ _ _ _ _ _ "3" 55 (by decide) (by decide) rfl (by decide)
    rfl rfl (by decide) (by decide) (by decide)

/-- Case analysis of everything after admission: either one of the four
failure returns, each leaving the store untouched, or the success return,
which writes the link and then decrements the quota key. -/
theorem mainStep_cases (env : Env) (isURL : String → Bool) (uuidStr : String)
    (setFails : Bool) (ip : String) (b : Request) (st : Store) :
    (∃ o, (o = ShortenOut.invalidURL ∨ o = ShortenOut.invalidDomain ∨
           o = ShortenOut.alreadyExists ∨ o = ShortenOut.saveError) ∧
      mainStep env isURL uuidStr setFails ip b st = (o, st)) ∨
    (∃ r, mainStep env isURL uuidStr setFails ip b st
        = (.ok r,
           { db0 := kvSet st.db0 (reqId uuidStr b) (EnforceHTTP b.url)
               (wrap64 ((if b.expiry = 0 then 24 else b.expiry) * nsPerHour)),
             db1 := kvDecr st.db1 ip })) := by
  unfold mainStep
  by_cases h1 : (!isURL b.url) = true
  · rw [if_pos h1]
    exact Or.inl ⟨_, Or.inl rfl, rfl⟩
  · rw [if_neg h1]
    by_cases h2 : (!RemoveDomainError b.url env.domain) = true
    · rw [if_pos h2]
      exact Or.inl ⟨_, Or.inr (Or.inl rfl), rfl⟩
    · rw [if_neg h2]
      simp only []
      by_cases h3 :
          (((kvGet st.db0 (reqId uuidStr b)).map Prod.fst).getD "" != "") = true
      · rw [if_pos h3]
        exact Or.inl ⟨_, Or.inr (Or.inr (Or.inl rfl)), rfl⟩
      · rw [if_neg h3]
        by_cases h4 : setFails = true
        · rw [if_pos h4]
          exact Or.inl ⟨_, Or.inr (Or.inr (Or.inr rfl)), rfl⟩
        · rw [if_neg h4]
          exact Or.inr ⟨_, rfl⟩

/-- C8. A request from a client with no quota record is never
rate-limited: the record is created holding the configured quota string
with the 30-minute window TTL; on any later failure the record still holds
that undecremented value, and only a successful request ends in a
decrement. -/
theorem c8_absent_record_creation
    (env : Env) (isURL : String → Bool) (uuidStr : String) (setFails : Bool)
    (ip : String) (b : Request) (st : Store)
    (habsent : kvGet st.db1 ip = none) :
    (∀ t, (ShortenURL env isURL uuidStr setFails ip (some b) st).1
        ≠ .rateLimited t) ∧
    ((∀ r, (ShortenURL env isURL uuidStr setFails ip (some b) st).1 ≠ .ok r) →
      kvGet (ShortenURL env isURL uuidStr setFails ip (some b) st).2.db1 ip
        = some (env.apiQuota, thirtyMinutesNs)) ∧
    (∀ r, (ShortenURL env isURL uuidStr setFails ip (some b) st).1 = .ok r →
      (ShortenURL env isURL uuidStr setFails ip (some b) st).2.db1
        = kvDecr (kvSet st.db1 ip env.apiQuota thirtyMinutesNs) ip) := by
  have hsu : ShortenURL env isURL uuidStr setFails ip (some b) st
      = mainStep env isURL uuidStr setFails ip b
          { st with db1 := kvSet st.db1 ip env.apiQuota thirtyMinutesNs } := by
    rw [ShortenURL, rateCheck, habsent]
  rcases mainStep_cases env isURL uuidStr setFails ip b
      { st with db1 := kvSet st.db1 ip env.apiQuota thirtyMinutesNs } with
    ⟨o, ho, heq⟩ | ⟨r, heq⟩
  · refine ⟨?_, ?_, ?_⟩
    · intro t hcontra
      rw [hsu, heq] at hcontra
      rcases ho with rfl | rfl | rfl | rfl <;> simp at hcontra
    · intro _
      rw [hsu, heq]
      exact kvGet_kvSet_self _ _ _ _
    · intro r hr
      rw [hsu, heq] at hr
      rcases ho with rfl | rfl | rfl | rfl <;> simp at hr
  · refine ⟨?_, ?_, ?_⟩
    · intro t hcontra
      rw [hsu, heq] at hcontra
      simp at hcontra
    · intro hnok
      exact absurd (by rw [hsu, heq]) (hnok r)
    · intro r' _
      rw [hsu, heq]

/-- C8 witness. A first request from a fresh client against empty
stores. -/
theorem c8_absent_record_creation_witness :
    (∀ t, (ShortenURL { apiQuota := "10", domain := "sv.example" } (fun _ => true)
        "ffffff" false "3.3.3.3"
        (some { url := "https://a.example/p", customShort := "w8", expiry := 0 })
        { db0 := [], db1 := [] }).1 ≠ .rateLimited t) ∧
    ((∀ r, (ShortenURL { apiQuota := "10", domain := "sv.example" } (fun _ => true)
        "ffffff" false "3.3.3.3"
        (some { url := "https://a.example/p", customShort := "w8", expiry := 0 })
        { db0 := [], db1 := [] }).1 ≠ .ok r) →
      kvGet (ShortenURL { apiQuota := "10", domain := "sv.example" } (fun _ => true)
        "ffffff" false "3.3.3.3"
        (some { url := "https://a.example/p", customShort := "w8", expiry := 0 })
        { db0 := [], db1 := [] }).2.db1 "3.3.3.3" = some ("10", thirtyMinutesNs)) ∧
    (∀ r, (ShortenURL { apiQuota := "10", domain := "sv.example" } (fun _ => true)
        "ffffff" false "3.3.3.3"
        (some { url := "https://a.example/p", customShort := "w8", expiry := 0 })
        { db0 := [], db1 := [] }).1 = .ok r →
      (ShortenURL { apiQuota := "10", domain := "sv.example" } (fun _ => true)
        "ffffff" false "3.3.3.3"
        (some { url := "https://a.example/p", customShort := "w8", expiry := 0 })
        { db0 := [], db1 := [] }).2.db1
        = kvDecr (kvSet [] "3.3.3.3" "10" thirtyMinutesNs) "3.3.3.3") :=
  c8_absent_record_creation _ _ _ _ _ _ _ (by decide)

/-- The quota namespace as it stands right after the rate-limiting block of
an admitted request: created fresh when the key was absent, untouched
otherwise. -/
def db1AfterCheck (env : Env) (ip : String) (db1 : KV) : KV :=
  match kvGet db1 ip with
  | none => kvSet db1 ip env.apiQuota thirtyMinutesNs
  | some _ => db1

/-- C2. A request that fails at any step leaves the link namespace
untouched and never decrements the client's quota value (at most the
absent record is created, holding the full configured quota); the
decrement — and the link write — happen exactly on the success path. -/
theorem c2_no_partial_side_effects
    (env : Env) (isURL : String → Bool) (uuidStr : String) (setFails : Bool)
    (ip : String) (body? : Option Request) (st : Store) :
    ((∀ r, (ShortenURL env isURL uuidStr setFails ip body? st).1 ≠ .ok r) →
      (ShortenURL env isURL uuidStr setFails ip body? st).2.db0 = st.db0 ∧
      (kvGet (ShortenURL env isURL uuidStr setFails ip body? st).2.db1 ip
          = kvGet st.db1 ip ∨
        (kvGet st.db1 ip = none ∧
          kvGet (ShortenURL env isURL uuidStr setFails ip body? st).2.db1 ip
            = some (env.apiQuota, thirtyMinutesNs)))) ∧
    (∀ r, (ShortenURL env isURL uuidStr setFails ip body? st).1 = .ok r →
      ∃ b, body? = some b ∧
        (ShortenURL env isURL uuidStr setFails ip body? st).2.db0
          = kvSet st.db0 (reqId uuidStr b) (EnforceHTTP b.url)
              (wrap64 ((if b.expiry = 0 then 24 else b.expiry) * nsPerHour)) ∧
        (ShortenURL env isURL uuidStr setFails ip body? st).2.db1
          = kvDecr (db1AfterCheck env ip st.db1) ip) := by
  cases body? with
  | none =>
    refine ⟨fun _ => ⟨rfl, Or.inl rfl⟩, fun r hr => ?_⟩
    simp [ShortenURL] at hr
  | some b =>
    cases hget : kvGet st.db1 ip with
    | none =>
      have hafter : db1AfterCheck env ip st.db1
          = kvSet st.db1 ip env.apiQuota thirtyMinutesNs := by
        rw [db1AfterCheck, hget]
      have hsu : ShortenURL env isURL uuidStr setFails ip (some b) st
          = mainStep env isURL uuidStr setFails ip b
              { st with db1 := kvSet st.db1 ip env.apiQuota thirtyMinutesNs } := by
        rw [ShortenURL, rateCheck, hget]
      rcases mainStep_cases env isURL uuidStr setFails ip b
          { st with db1 := kvSet st.db1 ip env.apiQuota thirtyMinutesNs } with
        ⟨o, ho, heq⟩ | ⟨r, heq⟩
      · refine ⟨fun _ => ?_, fun r hr => ?_⟩
        · rw [hsu, heq]
          exact ⟨rfl, Or.inr ⟨rfl, kvGet_kvSet_self _ _ _ _⟩⟩
        · rw [hsu, heq] at hr
          rcases ho with rfl | rfl | rfl | rfl <;> simp at hr
      · refine ⟨fun hnok => ?_, fun r' _ => ?_⟩
        · exact absurd (by rw [hsu, heq]) (hnok r)
        · rw [hsu, heq, hafter]
          exact ⟨b, rfl, rfl, rfl⟩
    | some vt =>
      obtain ⟨v, t⟩ := vt
      have hafter : db1AfterCheck env ip st.db1 = st.db1 := by
        rw [db1AfterCheck, hget]
      by_cases hz : goAtoi v ≤ 0
      · have hsu : ShortenURL env isURL uuidStr setFails ip (some b) st
            = (.rateLimited t, st) := by
          rw [ShortenURL, rateCheck_reject env ip st.db1 v t hget hz]
        refine ⟨fun _ => by rw [hsu]; exact ⟨rfl, Or.inl hget⟩, fun r hr => ?_⟩
        rw [hsu] at hr
        simp at hr
      · have hsu : ShortenURL env isURL uuidStr setFails ip (some b) st
            = mainStep env isURL uuidStr setFails ip b st := by
          rw [ShortenURL, rateCheck_admit_pos env ip st.db1 v t hget (by omega)]
        rcases mainStep_cases env isURL uuidStr setFails ip b st with
          ⟨o, ho, heq⟩ | ⟨r, heq⟩
        · refine ⟨fun _ => by rw [hsu, heq]; exact ⟨rfl, Or.inl hget⟩, fun r hr => ?_⟩
          rw [hsu, heq] at hr
          rcases ho with rfl | rfl | rfl | rfl <;> simp at hr
        · refine ⟨fun hnok => ?_, fun r' _ => ?_⟩
          · exact absurd (by rw [hsu, heq]) (hnok r)
          · rw [hsu, heq, hafter]
            exact ⟨b, rfl, rfl, rfl⟩

/-- C2 witness. A concrete save-failure request: the write to the link
namespace fails, and the quota record keeps its value `"3"`. -/
theorem c2_no_partial_side_effects_witness :
    ((∀ r, (ShortenURL { apiQuota := "10", domain := "sv.example" } (fun _ => true)
        "gggggg" true "2.2.2.2"
        (some { url := "https://a.example/p", customShort := "w2", expiry := 0 })
        { db0 := [], db1 := [("2.2.2.2", "3", 55)] }).1 ≠ .ok r) →
      (ShortenURL { apiQuota := "10", domain := "sv.example" } (fun _ => true)
        "gggggg" true "2.2.2.2"
        (some { url := "https://a.example/p", customShort := "w2", expiry := 0 })
        { db0 := [], db1 := [("2.2.2.2", "3", 55)] }).2.db0 = [] ∧
      (kvGet (ShortenURL { apiQuota := "10", domain := "sv.example" } (fun _ => true)
          "gggggg" true "2.2.2.2"
          (some { url := "https://a.example/p", customShort := "w2", expiry := 0 })
          { db0 := [], db1 := [("2.2.2.2", "3", 55)] }).2.db1 "2.2.2.2"
          = kvGet [("2.2.2.2", "3", 55)] "2.2.2.2" ∨
        (kvGet [("2.2.2.2", "3", (55 : Int))] "2.2.2.2" = none ∧
          kvGet (ShortenURL { apiQuota := "10", domain := "sv.example" } (fun _ => true)
            "gggggg" true "2.2.2.2"
            (some { url := "https://a.example/p", customShort := "w2", expiry := 0 })
            { db0 := [], db1 := [("2.2.2.2", "3", 55)] }).2.db1 "2.2.2.2"
            = some ("10", thirtyMinutesNs)))) ∧
    (∀ r, (ShortenURL { apiQuota := "10", domain := "sv.example" } (fun _ => true)
        "gggggg" true "2.2.2.2"
        (some { url := "https://a.example/p", customShort := "w2", expiry := 0 })
        { db0 := [], db1 := [("2.2.2.2", "3", 55)] }).1 = .ok r →
      ∃ b, (some { url := "https://a.example/p", customShort := "w2", expiry := (0 : Int) } : Option Request) = some b ∧
        (ShortenURL { apiQuota := "10", domain := "sv.example" } (fun _ => true)
          "gggggg" true "2.2.2.2"
          (some { url := "https://a.example/p", customShort := "w2", expiry := 0 })
          { db0 := [], db1 := [("2.2.2.2", "3", 55)] }).2.db0
          = kvSet [] (reqId "gggggg" b) (EnforceHTTP b.url)
              (wrap64 ((if b.expiry = 0 then 24 else b.expiry) * nsPerHour)) ∧
        (ShortenURL { apiQuota := "10", domain := "sv.example" } (fun _ => true)
          "gggggg" true "2.2.2.2"
          (some { url := "https://a.example/p", customShort := "w2", expiry := 0 })
          { db0 := [], db1 := [("2.2.2.2", "3", 55)] }).2.db1
          = kvDecr (db1AfterCheck { apiQuota := "10", domain := "sv.example" }
              "2.2.2.2" [("2.2.2.2", "3", 55)]) "2.2.2.2") :=
  c2_no_partial_side_effects { apiQuota := "10", domain := "sv.example" }
    (fun _ => true) "gggggg" true "2.2.2.2"
    (some { url := "https://a.example/p", customShort := "w2", expiry := 0 })
    { db0 := [], db1 := [("2.2.2.2", "3", 55)] }

/-- C1. Starting a window with no quota record and configured quota
`q`, a sequential run of `q + 1` otherwise-valid requests from one client
address admits exactly the first `q` — the `i`-th response reporting the
strictly decreasing remaining count `q - 1 - i` — and rejects the
`(q+1)`-th as rate-limited with the positive window TTL as reset
duration. -/
theorem c1_exact_quota_per_window
    (q : Nat) (hq : 0 < q) (hqB : (q : Int) ≤ maxI64)
    (env : Env) (hquota : env.apiQuota = natDecimal q)
    (isURL : String → Bool) (ip : String)
    (first : Request × String) (rest : List (Request × String))
    (hlen : rest.length = q)
    (st0 : Store) (habsent : kvGet st0.db1 ip = none)
    (hvalid : ∀ p ∈ first :: rest, isURL p.1.url = true)
    (hdom : ∀ p ∈ first :: rest, RemoveDomainError p.1.url env.domain = true)
    (hcs : ∀ p ∈ first :: rest, p.1.customShort ≠ "")
    (hfresh : ∀ p ∈ first :: rest, kvGet st0.db0 p.1.customShort = none)
    (hnodup : ((first :: rest).map fun p => p.1.customShort).Nodup) :
    (∀ i, i < q → ∃ r,
        (runRequests env isURL ip (first :: rest) st0).1[i]? = some (.ok r) ∧
        r.xRateRemaining = (q : Int) - 1 - i) ∧
    (runRequests env isURL ip (first :: rest) st0).1[q]?
      = some (.rateLimited thirtyMinutesNs) ∧
    (0 : Int) < thirtyMinutesNs := by
  obtain ⟨q', rfl⟩ : ∃ t, q = t + 1 := ⟨q - 1, by omega⟩
  obtain ⟨b, u⟩ := first
  have hvb : isURL b.url = true := hvalid (b, u) (List.mem_cons_self _ _)
  have hdb : RemoveDomainError b.url env.domain = true :=
    hdom (b, u) (List.mem_cons_self _ _)
  have hcb : b.customShort ≠ "" := hcs (b, u) (List.mem_cons_self _ _)
  have hfb : kvGet st0.db0 b.customShort = none := hfresh (b, u) (List.mem_cons_self _ _)
  have hid : reqId u b = b.customShort := by rw [reqId, if_neg hcb]
  have hnotmem : b.customShort ∉ rest.map (fun p => p.1.customShort) := by
    have := hnodup
    simp only [List.map_cons, List.nodup_cons] at this
    exact this.1
  have hnodup' : (rest.map fun p => p.1.customShort).Nodup := by
    have := hnodup
    simp only [List.map_cons, List.nodup_cons] at this
    exact this.2
  have hsu : ShortenURL env isURL u false ip (some b) st0
      = mainStep env isURL u false ip b
          { st0 with db1 := kvSet st0.db1 ip (natDecimal (q' + 1)) thirtyMinutesNs } := by
    rw [ShortenURL, rateCheck, habsent, hquota]
  have hmain := mainStep_ok env isURL u ip b
    { st0 with db1 := kvSet st0.db1 ip (natDecimal (q' + 1)) thirtyMinutesNs }
    (q' + 1) thirtyMinutesNs (by omega) hqB hvb hdb
    (by show kvGet st0.db0 (reqId u b) = none; rw [hid]; exact hfb)
    (kvGet_kvSet_self _ _ _ _)
  simp only [Nat.add_sub_cancel] at hmain
  set st1 : Store :=
    { db0 := kvSet st0.db0 (reqId u b) (EnforceHTTP b.url)
        (wrap64 ((if b.expiry = 0 then 24 else b.expiry) * nsPerHour)),
      db1 := kvSet (kvSet st0.db1 ip (natDecimal (q' + 1)) thirtyMinutesNs) ip
        (natDecimal q') thirtyMinutesNs } with hst1
  have hrest := runRequests_window env isURL ip rest st1 q'
    (by push_cast at hqB ⊢; omega)
    (by rw [hst1]; exact kvGet_kvSet_self _ _ _ _)
    (fun p hp => hvalid p (List.mem_cons_of_mem _ hp))
    (fun p hp => hdom p (List.mem_cons_of_mem _ hp))
    (fun p hp => hcs p (List.mem_cons_of_mem _ hp))
    (fun p hp => by
      rw [hst1]
      show kvGet (kvSet st0.db0 (reqId u b) _ _) p.1.customShort = none
      rw [hid, kvGet_kvSet_ne]
      · exact hfresh p (List.mem_cons_of_mem _ hp)
      · intro hEq
        exact hnotmem (hEq ▸ List.mem_map_of_mem (fun p => p.1.customShort) hp))
    hnodup'
  rw [runRequests]
  simp only [hsu, hmain]
  refine ⟨?_, ?_, by decide⟩
  · intro i hi
    cases i with
    | zero =>
      exact ⟨_, List.getElem?_cons_zero, by
        show ((q' + 1 : Nat) : Int) - 1 = ((q' + 1 : Nat) : Int) - 1 - ((0 : Nat) : Int)
        push_cast
        ring⟩
    | succ j =>
      have hj : j < rest.length := by omega
      obtain ⟨r, hr, hrem⟩ := (hrest.2 j hj).1 (by omega)
      refine ⟨r, ?_, ?_⟩
      · rw [List.getElem?_cons_succ]
        exact hr
      · rw [hrem]
        push_cast
        ring
  · rw [List.getElem?_cons_succ]
    exact (hrest.2 q' (by omega)).2 le_rfl

/-- C1 witness. Quota 2, fresh window, three valid requests with
distinct custom identifiers: remaining counts 1 then 0, then a 429 with
the 30-minute TTL. -/
theorem c1_exact_quota_per_window_witness :
    (∀ i : Nat, i < 2 → ∃ r,
        (runRequests { apiQuota := natDecimal 2, domain := "sv.example" }
          (fun _ => true) "1.1.1.1"
          (({ url := "https://a.example/1", customShort := "k1", expiry := 0 }, "u1") ::
            [({ url := "https://a.example/2", customShort := "k2", expiry := 0 }, "u2"),
             ({ url := "https://a.example/3", customShort := "k3", expiry := 0 }, "u3")])
          { db0 := [], db1 := [] }).1[i]? = some (.ok r) ∧
        r.xRateRemaining = ((2 : Nat) : Int) - 1 - i) ∧
    (runRequests { apiQuota := natDecimal 2, domain := "sv.example" }
      (fun _ => true) "1.1.1.1"
      (({ url := "https://a.example/1", customShort := "k1", expiry := 0 }, "u1") ::
        [({ url := "https://a.example/2", customShort := "k2", expiry := 0 }, "u2"),
         ({ url := "https://a.example/3", customShort := "k3", expiry := 0 }, "u3")])
      { db0 := [], db1 := [] }).1[2]? = some (.rateLimited thirtyMinutesNs) ∧
    (0 : Int) < thirtyMinutesNs :=
  c1_exact_quota_per_window 2 (by decide) (by decide)
    { apiQuota := natDecimal 2, domain := "sv.example" } rfl (fun _ => true) "1.1.1.1"
    ({ url := "https://a.example/1", customShort := "k1", expiry := 0 }, "u1")
    [({ url := "https://a.example/2", customShort := "k2", expiry := 0 }, "u2"),
     ({ url := "https://a.example/3", customShort := "k3", expiry := 0 }, "u3")]
    (by decide) { db0 := [], db1 := [] } (by decide)
    (by decide) (by decide) (by decide) (by decide) (by decide)

/-- Interleaved execution of two in-flight requests from the same client:
both rate-limit checks read the shared quota namespace before either
request's remaining steps run (schedule: check₁, check₂, body₁, body₂).
This schedule is available to the handler precisely because the admission
read (lines 43–55) and the consuming decrement (line 108) are separate
store operations rather than one atomic compare-and-decrement. -/
def racedPair (env : Env) (isURL : String → Bool) (u1 u2 : String)
    (ip : String) (b1 b2 : Request) (st : Store) :
    ShortenOut × ShortenOut × Store :=
  match rateCheck env ip st.db1 with
  | .reject t => (.rateLimited t, .rateLimited t, st)
  | .admitted d1 =>
    match rateCheck env ip d1 with
    | .reject t =>
      let p := mainStep env isURL u1 false ip b1 { st with db1 := d1 }
      (p.1, .rateLimited t, p.2)
    | .admitted d2 =>
      let p := mainStep env isURL u1 false ip b1 { st with db1 := d2 }
      let q := mainStep env isURL u2 false ip b2 p.2
      (p.1, q.1, q.2)

/-- C4. With one unit of quota left (`"1"`, which both checks read as
the positive value 1), two concurrently in-flight requests are both
admitted and both succeed under the interleaving `check₁, check₂, body₁,
body₂`, so the window's admissions exceed the remaining quota by the
number of in-flight requests; run sequentially instead, the same two
requests yield one success and one rate-limit rejection. -/
theorem c4_rate_limiter_race :
    goAtoi "1" = 1 ∧
    (∃ r1 r2 stF,
      racedPair { apiQuota := "5", domain := "sv.example" } (fun _ => true)
        "u1u1u1" "u2u2u2" "7.7.7.7"
        { url := "https://a.example/1", customShort := "ra", expiry := 0 }
        { url := "https://b.example/2", customShort := "rb", expiry := 0 }
        { db0 := [], db1 := [("7.7.7.7", "1", thirtyMinutesNs)] }
        = (.ok r1, .ok r2, stF)) ∧
    (∃ r1 t,
      (runRequests { apiQuota := "5", domain := "sv.example" } (fun _ => true)
        "7.7.7.7"
        [({ url := "https://a.example/1", customShort := "ra", expiry := 0 }, "u1u1u1"),
         ({ url := "https://b.example/2", customShort := "rb", expiry := 0 }, "u2u2u2")]
        { db0 := [], db1 := [("7.7.7.7", "1", thirtyMinutesNs)] }).1
        = [.ok r1, .rateLimited t] ∧ 0 < t) := by
  refine ⟨by decide,
    ⟨{ url := "https://a.example/1", customShort := "sv.example/ra",
        expiry := 24, xRateRemaining := 0, xRateLimitReset := 1800000000000 },
      { url := "https://b.example/2", customShort := "sv.example/rb",
        expiry := 24, xRateRemaining := -1, xRateLimitReset := 1800000000000 },
      { db0 := [("rb", "https://b.example/2", 86400000000000),
                ("ra", "https://a.example/1", 86400000000000)],
        db1 := [("7.7.7.7", "-1", 1800000000000)] }, by rfl⟩,
    ⟨{ url := "https://a.example/1", customShort := "sv.example/ra",
        expiry := 24, xRateRemaining := 0, xRateLimitReset := 1800000000000 },
      thirtyMinutesNs, by rfl, by decide⟩⟩
